import Mathlib

/-!
Verification of the model-serving gateway of the book-worm repository
(`src/llm-server`): model-memory management, registry listing, download
validation, and the chat/embedding request adapters, shallowly embedded
from the Python source.
-/

namespace LlmServer

/-!
### Model memory manager

Embeds `LLMModelManager.get_model` from
`src/llm-server/src/llm_client/chat_model.py` (lines 21-42).
`EmbeddingModelManager.get_model` in `embedding_model.py` (lines 20-41) is
line-for-line identical apart from the keyword arguments passed to the
`Llama` constructor (`chat_format="qwen"` versus `embedding=True`), which
do not affect the caching logic; both are covered by this one embedding.

The mutable singleton state is the `_models` dict (path -> Llama handle).
Handles are opaque; we track identity with a fresh natural number per
construction (`nextId`) and instrument the state with a construction
counter (`constructions`), the "construction counter on a test double"
the spec's testable property asks for.

Construction (`Llama(...)`) may raise: `constructError p = some e` means
the constructor raises exception `e` for path `p`, `none` means it
succeeds.  In Python, `self._models[path] = Llama(...)` evaluates the
right-hand side first, so a raising constructor propagates before the
dict assignment runs; the embedding returns the error together with the
(unchanged) state.
-/

structure MgrState where
  models : List (String × Nat)
  nextId : Nat
  constructions : Nat
  deriving Repr, DecidableEq

/-- Membership lookup in the `_models` dict (`model_path in self._models` /
`self._models[model_path]`). -/
def lookupModel (p : String) (ms : List (String × Nat)) : Option Nat :=
  (ms.find? (fun e => e.1 == p)).map (fun e => e.2)

/-- Python dict assignment `d[p] = h`: updates the entry in place when the
key is present, appends otherwise (insertion order preserved). -/
def dictInsert (ms : List (String × Nat)) (p : String) (h : Nat) : List (String × Nat) :=
  if (ms.find? (fun e => e.1 == p)).isSome then
    ms.map (fun e => if e.1 == p then (p, h) else e)
  else
    ms ++ [(p, h)]

/-- Embedded `get_model` (chat_model.py lines 21-42 and, identically,
embedding_model.py lines 20-41): if the path is cached return the cached
handle with no side effect; otherwise construct, insert, and return.  A
raising constructor propagates and the state is returned as it was. -/
def get_model (constructError : String → Option String) (s : MgrState) (p : String) :
    Except String Nat × MgrState :=
  match lookupModel p s.models with
  | some h => (Except.ok h, s)
  | none =>
    match constructError p with
    | some e => (Except.error e, s)
    | none =>
      (Except.ok s.nextId,
       { models := dictInsert s.models p s.nextId
         nextId := s.nextId + 1
         constructions := s.constructions + 1 })

/-- Embedded `unload_model`: remove from the cache when present (returning
true), no-op returning false otherwise. -/
def unload_model (s : MgrState) (p : String) : Bool × MgrState :=
  match lookupModel p s.models with
  | some _ => (true, { s with models := s.models.filter (fun e => !(e.1 == p)) })
  | none => (false, s)

/-- Embedded `is_loaded`: pure cache membership check. -/
def is_loaded (s : MgrState) (p : String) : Bool :=
  (lookupModel p s.models).isSome

lemma lookupModel_append_self (p : String) (h : Nat) (ms : List (String × Nat))
    (hp : lookupModel p ms = none) :
    lookupModel p (ms ++ [(p, h)]) = some h := by
  induction ms with
  | nil => simp [lookupModel]
  | cons e ms ih =>
    by_cases hc : e.1 == p
    · simp [lookupModel, List.find?, hc] at hp
    · simp only [lookupModel, List.cons_append, List.find?, hc] at hp ⊢
      exact ih hp

lemma dictInsert_of_not_mem (p : String) (h : Nat) (ms : List (String × Nat))
    (hp : lookupModel p ms = none) :
    dictInsert ms p h = ms ++ [(p, h)] := by
  have hf : (ms.find? (fun e => e.1 == p)) = none := by
    cases hfind : ms.find? (fun e => e.1 == p) with
    | none => rfl
    | some e => simp [lookupModel, hfind] at hp
  simp [dictInsert, hf]

/-- First claim-free helper: a fresh construction leaves the new path
cached under the freshly constructed handle. -/
lemma get_model_fresh (constructError : String → Option String) (s : MgrState) (p : String)
    (hp : lookupModel p s.models = none) (hc : constructError p = none) :
    get_model constructError s p =
      (Except.ok s.nextId,
       { models := s.models ++ [(p, s.nextId)]
         nextId := s.nextId + 1
         constructions := s.constructions + 1 }) := by
  simp [get_model, hp, hc, dictInsert_of_not_mem p s.nextId s.models hp]

/-- Helper shared by the C3 and C2 developments: a fresh load followed by
a second call on the same path is a cache hit with identical handle and
unchanged state. -/
lemma get_model_fresh_then_hit (constructError : String → Option String) (s : MgrState)
    (p : String) (hp : lookupModel p s.models = none) (hc : constructError p = none) :
    ∃ s1 : MgrState,
      get_model constructError s p = (Except.ok s.nextId, s1) ∧
      get_model constructError s1 p = (Except.ok s.nextId, s1) ∧
      s1.constructions = s.constructions + 1 ∧
      s1.models = s.models ++ [(p, s.nextId)] := by
  refine ⟨{ models := s.models ++ [(p, s.nextId)]
            nextId := s.nextId + 1
            constructions := s.constructions + 1 },
          get_model_fresh constructError s p hp hc, ?_, rfl, rfl⟩
  have hl := lookupModel_append_self p s.nextId s.models hp
  simp [get_model, hl]

/-- C3: calling `get_model` twice for the same path without an intervening
unload returns the identical handle both times and constructs the
underlying model exactly once; the second call is a pure cache hit that
leaves the state untouched. -/
theorem get_model_idempotent (constructError : String → Option String) (s : MgrState)
    (p : String) (hp : lookupModel p s.models = none) (hc : constructError p = none) :
    ∃ s1 : MgrState,
      get_model constructError s p = (Except.ok s.nextId, s1) ∧
      get_model constructError s1 p = (Except.ok s.nextId, s1) ∧
      s1.constructions = s.constructions + 1 ∧
      s1.models = s.models ++ [(p, s.nextId)] :=
  get_model_fresh_then_hit constructError s p hp hc

/-- Witness for C3 at a concrete input: an empty cache, a constructor that
always succeeds, and path m. -/
theorem get_model_idempotent_witness :
    ∃ s1 : LlmServer.MgrState,
      LlmServer.get_model (fun _ => none) ⟨[], 0, 0⟩ "m" = (Except.ok 0, s1) ∧
      LlmServer.get_model (fun _ => none) s1 "m" = (Except.ok 0, s1) ∧
      s1.constructions = 0 + 1 ∧
      s1.models = [] ++ [("m", 0)] :=
  LlmServer.get_model_idempotent (fun _ => none) ⟨[], 0, 0⟩ "m" (by decide) rfl

/-- C4: when the path is not cached and construction raises, the error
propagates unchanged to the caller and the manager state is exactly the
state before the call (the dict assignment never runs, so no partial or
broken entry is retained). -/
theorem get_model_construction_failure (constructError : String → Option String)
    (s : MgrState) (p : String) (e : String)
    (hp : lookupModel p s.models = none) (hc : constructError p = some e) :
    get_model constructError s p = (Except.error e, s) := by
  simp [get_model, hp, hc]

/-- Witness for C4 at a concrete input: empty cache, a constructor that
raises with message boom. -/
theorem get_model_construction_failure_witness :
    LlmServer.get_model (fun _ => some "boom") ⟨[], 0, 0⟩ "m" =
      (Except.error "boom", (⟨[], 0, 0⟩ : LlmServer.MgrState)) :=
  LlmServer.get_model_construction_failure (fun _ => some "boom") ⟨[], 0, 0⟩ "m" "boom"
    (by decide) rfl

/-!
### Concurrent `get_model` callers (C2)

`get_model` takes no lock.  Its body is two statements on shared state:

  A (`if model_path not in self._models:`) - the membership test;
  B (`self._models[model_path] = Llama(...)`) - construct and insert.

A thread that observed a hit skips B.  We model N concurrent callers as
tasks with a program counter (0 = about to run A, 1 = about to run B,
2 = done) interleaved by an explicit schedule over the shared cache.
-/

structure LoadTask where
  path : String
  pc : Nat
  deriving Repr, DecidableEq

/-- One step of one caller of `get_model` (statement granularity of the
Python source; the expensive `Llama(...)` construction together with the
dict insert is step B). -/
def stepTask (c : MgrState) (t : LoadTask) : MgrState × LoadTask :=
  match t.pc with
  | 0 =>
    if (lookupModel t.path c.models).isSome then
      (c, { t with pc := 2 })
    else
      (c, { t with pc := 1 })
  | 1 =>
    ({ models := dictInsert c.models t.path c.nextId
       nextId := c.nextId + 1
       constructions := c.constructions + 1 },
     { t with pc := 2 })
  | _ => (c, t)

/-- Advance the task at index i of the task pool by one step (no-op for an
out-of-range index). -/
def stepAt (s : MgrState × List LoadTask) (i : Nat) : MgrState × List LoadTask :=
  match s.2[i]? with
  | none => s
  | some t =>
    let r := stepTask s.1 t
    (r.1, s.2.set i r.2)

/-- Run an interleaving schedule (a list of task indices) over the shared
cache and the task pool. -/
def runSched (sched : List Nat) (s : MgrState × List LoadTask) : MgrState × List LoadTask :=
  sched.foldl stepAt s

/-- Counterexample to C2 as stated: two concurrent `get_model` callers for
the same unseen path m, interleaved as (A of task 0, A of task 1, B of
task 0, B of task 1), both construct - the shared construction counter
ends at 2, not 1.  The source takes no lock between the membership test
and the insert, so this interleaving is real. -/
theorem concurrent_get_model_double_construction :
    (runSched [0, 1, 0, 1] (⟨[], 0, 0⟩, [⟨"m", 0⟩, ⟨"m", 0⟩])).1.constructions = 2 := by
  decide

/-- N sequential (serialized) calls of `get_model`: each call runs to
completion before the next starts. -/
def seqCalls (constructError : String → Option String) (p : String) (s : MgrState) :
    Nat → MgrState
  | 0 => s
  | n + 1 => (get_model constructError (seqCalls constructError p s n) p).2

lemma seqCalls_stable (constructError : String → Option String) (p : String) (s : MgrState)
    (hp : lookupModel p s.models = none) (hc : constructError p = none) :
    ∀ n, 1 ≤ n →
      seqCalls constructError p s n = (get_model constructError s p).2 := by
  intro n hn
  induction n with
  | zero => omega
  | succ n ih =>
    rcases Nat.eq_or_lt_of_le hn with h1 | h1
    · have hn0 : n = 0 := by omega
      subst hn0
      simp [seqCalls]
    · have hn' : 1 ≤ n := by omega
      have hstable := ih hn'
      rw [seqCalls, hstable]
      rcases get_model_fresh_then_hit constructError s p hp hc with ⟨s1, hfst, hsnd, _, _⟩
      rw [hfst]
      simp [hsnd]

/-- C2 amended: when the N callers are serialized (no interleaving between
the membership test and the insert - what a single-threaded event loop
provides), N calls for the same unseen path construct the model exactly
once. -/
theorem serialized_get_model_single_construction (constructError : String → Option String)
    (p : String) (s : MgrState) (n : Nat)
    (hp : lookupModel p s.models = none) (hc : constructError p = none) (hn : 1 ≤ n) :
    (seqCalls constructError p s n).constructions = s.constructions + 1 := by
  rw [seqCalls_stable constructError p s hp hc n hn]
  rcases get_model_fresh_then_hit constructError s p hp hc with ⟨s1, hfst, _, hcount, _⟩
  rw [hfst]
  exact hcount

/-- Witness for the amended C2 at a concrete input: three serialized
callers, empty initial cache, construction counter ends at 1. -/
theorem serialized_get_model_single_construction_witness :
    (LlmServer.seqCalls (fun _ => none) "m" ⟨[], 0, 0⟩ 3).constructions = 0 + 1 :=
  LlmServer.serialized_get_model_single_construction (fun _ => none) "m" ⟨[], 0, 0⟩ 3
    (by decide) rfl (by decide)

/-!
### Registry / catalog (`src/api/services/model_service.py`)

`list_available_chat_models` (lines 78-112) and
`list_available_embedding_models` (lines 114-148) scan the class
subdirectory for completed `.gguf` files, then append an entry for every
in-flight download of that class whose derived name (`Path(filename).stem`)
is not already in the list.  The two functions are identical up to the
directory and the `model_type` tag; both are wrappers around one core
here.
-/

/-- One completed `.gguf` artifact found by the `rglob` scan of a class
subdirectory.  `fileName` is the final path component, `relPath` the path
relative to the models directory, `fullPath` the `str(model_file)` the
existence checks return, and `sizeStr` the `_format_size` rendering of the
byte size (the floating-point string formatting itself is kept as given
input data). -/
structure DiskFile where
  fileName : String
  relPath : String
  fullPath : String
  sizeStr : String
  deriving Repr, DecidableEq

/-- Value of one `_active_downloads` entry: status, originating repository
and model class tag. -/
structure DownloadInfo where
  status : String
  repository : String
  modelType : String
  deriving Repr, DecidableEq

/-- One row of the model listing returned by the list endpoints. -/
structure ModelEntry where
  name : String
  path : String
  size : String
  status : String
  deriving Repr, DecidableEq

/-- Python `pathlib.Path(name).stem` on a final path component: the name
without its last suffix, where a suffix is a dot at position i with
0 < i < len - 1 (a leading dot or a trailing dot is not a suffix). -/
def stemOf (name : String) : String :=
  let cs := name.toList
  match ((cs.enum.filter (fun q => q.2 = '.')).map (fun q => q.1)).getLast? with
  | some i => if 0 < i ∧ i < cs.length - 1 then String.mk (cs.take i) else name
  | none => name

/-- The listing row appended for an in-flight download of artifact `fn`. -/
def dlEntry (fn : String) : ModelEntry :=
  { name := stemOf fn, path := fn, size := "Downloading...", status := "downloading" }

/-- Loop body of the downloads pass of both listing functions: append a
downloading entry for an active download of this class unless its derived
name is already in the list built so far. -/
def dlStep (modelType : String) (ms : List ModelEntry) (kv : String × DownloadInfo) :
    List ModelEntry :=
  if kv.2.modelType == modelType then
    if ms.any (fun m => m.name == stemOf kv.1) then ms
    else ms ++ [dlEntry kv.1]
  else ms

/-- Shared body of the two listing functions: the ready entries from the
directory scan, then one downloading entry per active download of this
class whose stem is not already listed.  When the class subdirectory does
not exist the function returns the empty list before consulting the
download table. -/
def listAvailableCore (modelType : String) (dirExists : Bool) (files : List DiskFile)
    (active : List (String × DownloadInfo)) : List ModelEntry :=
  if !dirExists then []
  else
    let models := files.map (fun f =>
      { name := stemOf f.fileName, path := f.relPath, size := f.sizeStr
        status := "ready_to_use" : ModelEntry })
    active.foldl (dlStep modelType) models

/-- Embedded `ModelService.list_available_chat_models`. -/
def list_available_chat_models (dirExists : Bool) (files : List DiskFile)
    (active : List (String × DownloadInfo)) : List ModelEntry :=
  listAvailableCore "chat" dirExists files active

/-- Embedded `ModelService.list_available_embedding_models`. -/
def list_available_embedding_models (dirExists : Bool) (files : List DiskFile)
    (active : List (String × DownloadInfo)) : List ModelEntry :=
  listAvailableCore "embedding" dirExists files active

/-- Embedded `ModelService.chat_model_exists` (model_service.py lines
150-167): first `.gguf` file in the chat subdirectory whose stem equals
the requested name; `(False, "")` when the directory is missing or no file
matches. -/
def chat_model_exists (dirExists : Bool) (files : List DiskFile) (name : String) :
    Bool × String :=
  if !dirExists then (false, "")
  else
    match files.find? (fun f => stemOf f.fileName == name) with
    | some f => (true, f.fullPath)
    | none => (false, "")

/-- Embedded `ModelService.embedding_model_exists` (lines 169-186),
identical to the chat variant up to the scanned subdirectory. -/
def embedding_model_exists (dirExists : Bool) (files : List DiskFile) (name : String) :
    Bool × String :=
  if !dirExists then (false, "")
  else
    match files.find? (fun f => stemOf f.fileName == name) with
    | some f => (true, f.fullPath)
    | none => (false, "")

lemma dlStep_cases (modelType : String) (ms : List ModelEntry) (kv : String × DownloadInfo) :
    dlStep modelType ms kv = ms ∨
    (dlStep modelType ms kv = ms ++ [dlEntry kv.1] ∧
     ms.any (fun m => m.name == stemOf kv.1) = false) := by
  unfold dlStep
  cases hty : kv.2.modelType == modelType with
  | false => left; simp
  | true =>
    cases hany : ms.any (fun m => m.name == stemOf kv.1) with
    | true => left; simp
    | false => right; exact ⟨by simp, rfl⟩

lemma dlFold_count_inv (modelType : String) (active : List (String × DownloadInfo)) :
    ∀ ms : List ModelEntry,
      (∀ e ∈ ms, e.status = "downloading" →
        ms.countP (fun m => m.name == e.name) = 1) →
      ∀ e ∈ active.foldl (dlStep modelType) ms, e.status = "downloading" →
        (active.foldl (dlStep modelType) ms).countP (fun m => m.name == e.name) = 1 := by
  induction active with
  | nil => intro ms hinv; simpa using hinv
  | cons kv rest ih =>
    intro ms hinv
    simp only [List.foldl_cons]
    refine ih (dlStep modelType ms kv) ?_
    rcases dlStep_cases modelType ms kv with heq | ⟨heq, hany⟩
    · rw [heq]; exact hinv
    · rw [heq]
      have hnone : ∀ m ∈ ms, (m.name == stemOf kv.1) = false := by
        intro m hm
        have := List.any_eq_false.mp hany m hm
        simpa using this
      intro e he hst
      rcases List.mem_append.mp he with hems | hed
      · have hne : ((dlEntry kv.1).name == e.name) = false := by
          refine Bool.eq_false_iff.mpr ?_
          intro hbeq
          have heqn : stemOf kv.1 = e.name := by simpa [dlEntry] using hbeq
          have := hnone e hems
          rw [heqn] at this
          simp at this
        have hcount := hinv e hems hst
        rw [List.countP_append, hcount]
        simp [hne]
      · have hed' : e = dlEntry kv.1 := by simpa using hed
        subst hed'
        rw [List.countP_append]
        have hz : ms.countP (fun m => m.name == (dlEntry kv.1).name) = 0 := by
          refine List.countP_eq_zero.mpr ?_
          intro m hm
          have := hnone m hm
          simpa [dlEntry] using this
        rw [hz]
        simp

lemma dlFold_ready_inv (modelType : String) (active : List (String × DownloadInfo))
    (s : String) :
    ∀ ms : List ModelEntry,
      ms.any (fun m => m.name == s) = true →
      (∀ e ∈ ms, e.name = s → e.status = "ready_to_use") →
      ∀ e ∈ active.foldl (dlStep modelType) ms, e.name = s → e.status = "ready_to_use" := by
  induction active with
  | nil => intro ms _ hready; simpa using hready
  | cons kv rest ih =>
    intro ms hany hready
    simp only [List.foldl_cons]
    rcases dlStep_cases modelType ms kv with heq | ⟨heq, hguard⟩
    · rw [heq]; exact ih ms hany hready
    · rw [heq]
      have hne : stemOf kv.1 ≠ s := by
        intro hss
        rw [hss] at hguard
        rw [hguard] at hany
        exact Bool.false_ne_true hany
      refine ih (ms ++ [dlEntry kv.1]) ?_ ?_
      · rw [List.any_append, hany]; simp
      · intro e he hnm
        rcases List.mem_append.mp he with hems | hed
        · exact hready e hems hnm
        · have hed' : e = dlEntry kv.1 := by simpa using hed
          subst hed'
          exact absurd hnm hne

lemma listAvailableCore_inv (modelType : String) (dirExists : Bool) (files : List DiskFile)
    (active : List (String × DownloadInfo)) :
    (∀ e ∈ listAvailableCore modelType dirExists files active, e.status = "downloading" →
      (listAvailableCore modelType dirExists files active).countP
        (fun m => m.name == e.name) = 1) ∧
    (∀ s : String, files.any (fun f => stemOf f.fileName == s) = true →
      ∀ e ∈ listAvailableCore modelType dirExists files active, e.name = s →
        e.status = "ready_to_use") := by
  by_cases hd : dirExists
  · unfold listAvailableCore
    simp only [hd, Bool.not_true, if_neg (by simp : ¬(false = true))]
    constructor
    · refine dlFold_count_inv modelType active _ ?_
      intro e he hst
      rcases List.mem_map.mp he with ⟨f, _, hf⟩
      rw [← hf] at hst
      simp at hst
    · intro s hs
      refine dlFold_ready_inv modelType active s _ ?_ ?_
      · rw [List.any_eq_true] at hs ⊢
        rcases hs with ⟨f, hf, hfs⟩
        exact ⟨_, List.mem_map_of_mem _ hf, by simpa using hfs⟩
      · intro e he _
        rcases List.mem_map.mp he with ⟨f, _, hf⟩
        rw [← hf]
  · unfold listAvailableCore
    simp [hd]

/-- Counterexample to C5 as stated: two completed files with the same stem
in different subdirectories of the chat models directory are both listed,
so the derived name x appears twice even with no download in flight. -/
theorem list_available_duplicate_stems_counterexample :
    (list_available_chat_models true
      [⟨"x.gguf", "chat/a/x.gguf", "/models/chat/a/x.gguf", "1.00 MB"⟩,
       ⟨"x.gguf", "chat/b/x.gguf", "/models/chat/b/x.gguf", "2.00 MB"⟩]
      []).countP (fun m => m.name == "x") = 2 := by
  decide

/-- C5 amended: a downloading entry never duplicates any other listed
entry - its derived name occurs exactly once in the whole listing - and
whenever a completed file with a given stem is on disk, every listed entry
with that name is the ready one (the in-flight record is suppressed;
completed state is authoritative).  The only duplicate names the listing
can contain come from the directory scan itself (two completed files with
the same stem). -/
theorem list_available_no_cross_duplicates (dirExists : Bool) (files : List DiskFile)
    (active : List (String × DownloadInfo)) :
    (∀ e ∈ list_available_chat_models dirExists files active, e.status = "downloading" →
      (list_available_chat_models dirExists files active).countP
        (fun m => m.name == e.name) = 1) ∧
    (∀ s : String, files.any (fun f => stemOf f.fileName == s) = true →
      ∀ e ∈ list_available_chat_models dirExists files active, e.name = s →
        e.status = "ready_to_use") ∧
    (∀ e ∈ list_available_embedding_models dirExists files active, e.status = "downloading" →
      (list_available_embedding_models dirExists files active).countP
        (fun m => m.name == e.name) = 1) ∧
    (∀ s : String, files.any (fun f => stemOf f.fileName == s) = true →
      ∀ e ∈ list_available_embedding_models dirExists files active, e.name = s →
        e.status = "ready_to_use") :=
  ⟨(listAvailableCore_inv "chat" dirExists files active).1,
   (listAvailableCore_inv "chat" dirExists files active).2,
   (listAvailableCore_inv "embedding" dirExists files active).1,
   (listAvailableCore_inv "embedding" dirExists files active).2⟩

/-- Witness for the amended C5 at a concrete input: a completed file x and
active downloads for x (suppressed by the completed file) and y (listed
once): the downloading entry for y occurs exactly once in the listing. -/
theorem list_available_no_cross_duplicates_witness :
    (LlmServer.list_available_chat_models true
      [⟨"x.gguf", "chat/x.gguf", "/models/chat/x.gguf", "1.00 MB"⟩]
      [("x.gguf", ⟨"downloading", "r1", "chat"⟩), ("y.gguf", ⟨"downloading", "r2", "chat"⟩)]
      ).countP (fun m => m.name ==
        ({ name := "y", path := "y.gguf", size := "Downloading..."
           status := "downloading" : LlmServer.ModelEntry }).name) = 1 :=
  (LlmServer.list_available_no_cross_duplicates true
    [⟨"x.gguf", "chat/x.gguf", "/models/chat/x.gguf", "1.00 MB"⟩]
    [("x.gguf", ⟨"downloading", "r1", "chat"⟩), ("y.gguf", ⟨"downloading", "r2", "chat"⟩)]).1
    { name := "y", path := "y.gguf", size := "Downloading...", status := "downloading" }
    (by decide) rfl

/-!
### Download allow-list (`model_service.py` lines 37-46, 220-235) and the
download endpoint (`model_controller.py` lines 147-168)
-/

/-- Static allow-list of downloadable chat models (repository id mapped to
artifact filename), from the class body of `ModelService`. -/
def DOWNLOADABLE_CHAT_MODELS : List (String × String) :=
  [("unsloth/Qwen3-4B-Instruct-2507-GGUF", "Qwen3-4B-Instruct-2507-Q4_K_M.gguf"),
   ("lmstudio-community/Qwen3-30B-A3B-Instruct-2507-GGUF",
    "Qwen3-30B-A3B-Instruct-2507-Q3_K_L.gguf")]

/-- Static allow-list of downloadable embedding models. -/
def DOWNLOADABLE_EMBEDDING_MODELS : List (String × String) :=
  [("Qwen/Qwen3-Embedding-4B-GGUF", "Qwen3-Embedding-4B-Q4_K_M.gguf"),
   ("Qwen/Qwen3-Embedding-8B-GGUF", "Qwen3-Embedding-8B-Q4_K_M.gguf")]

/-- The Python merge of the two tables.  The key sets are disjoint, so the
dict merge is plain concatenation in insertion order. -/
def allAllowed : List (String × String) :=
  DOWNLOADABLE_CHAT_MODELS ++ DOWNLOADABLE_EMBEDDING_MODELS

/-- Embedded `ModelService.validate_repository`: raises (here: returns an
error) exactly when the repository is not a key of either table.  The
source message quotes the repository name and joins the allowed keys; the
quoting characters are elided here. -/
def validate_repository (repository : String) : Except String Unit :=
  if (allAllowed.map (fun kv => kv.1)).contains repository then Except.ok ()
  else
    Except.error ("Repository " ++ repository ++
      " is not in the list of downloadable models. Allowed models: " ++
      String.intercalate ", " (allAllowed.map (fun kv => kv.1)))

/-- Response body of a 202 accepted download. -/
structure ModelDownloadResponse where
  repository : String
  status : String
  path : String
  message : String
  deriving Repr, DecidableEq

inductive DownloadResult where
  | accepted (r : ModelDownloadResponse)
  | httpError (status : Nat) (detail : String)
  deriving Repr, DecidableEq

/-- Embedded `download_model` endpoint handler: validate first; a
`ValueError` becomes a 400 before any background work is scheduled.  The
boolean in the result records whether the background fetch task was
scheduled (`background_tasks.add_task(...)`), i.e. whether the repository
string reached the fetch layer. -/
def download_model (repository : String) : DownloadResult × Bool :=
  match validate_repository repository with
  | Except.error msg => (DownloadResult.httpError 400 msg, false)
  | Except.ok _ =>
    let filename := ((allAllowed.find? (fun kv => kv.1 == repository)).map
      (fun kv => kv.2)).getD "model.gguf"
    (DownloadResult.accepted
      { repository := repository, status := "downloading", path := filename
        message := "Model download started in background" },
     true)

/-- C6: `validate_repository` accepts a repository exactly when it is a
key of one of the two static allow-list tables, and the download endpoint
schedules a background fetch exactly in that case - any other identifier
is rejected with a 400 and never reaches the fetch layer. -/
theorem validate_repository_allowlist (repository : String) :
    (validate_repository repository = Except.ok () ↔
      repository ∈ allAllowed.map (fun kv => kv.1)) ∧
    ((download_model repository).2 = true ↔
      repository ∈ allAllowed.map (fun kv => kv.1)) ∧
    (validate_repository repository = Except.ok () ∨
      (download_model repository).1 = DownloadResult.httpError 400
        ("Repository " ++ repository ++
          " is not in the list of downloadable models. Allowed models: " ++
          String.intercalate ", " (allAllowed.map (fun kv => kv.1)))) := by
  have hmem : (allAllowed.map (fun kv => kv.1)).contains repository = true ↔
      repository ∈ allAllowed.map (fun kv => kv.1) :=
    List.elem_iff
  cases hc : (allAllowed.map (fun kv => kv.1)).contains repository with
  | true =>
    have hin := hmem.mp hc
    refine ⟨⟨fun _ => hin, fun _ => ?_⟩, ⟨fun _ => hin, fun _ => ?_⟩, Or.inl ?_⟩ <;>
      simp [download_model, validate_repository, hc, hin]
  | false =>
    have hnotin : ¬repository ∈ allAllowed.map (fun kv => kv.1) := fun hin =>
      Bool.false_ne_true (hc ▸ hmem.mpr hin)
    refine ⟨⟨fun hv => ?_, fun hm => absurd hm hnotin⟩,
            ⟨fun hd => ?_, fun hm => absurd hm hnotin⟩, Or.inr ?_⟩
    · simp [validate_repository, hnotin] at hv
    · simp [download_model, validate_repository, hnotin] at hd
    · simp [download_model, validate_repository, hnotin]

/-- Witness for C6 at concrete inputs: the first chat repository is
accepted; an arbitrary identifier outside both tables is rejected and
never scheduled. -/
theorem validate_repository_allowlist_witness :
    LlmServer.validate_repository "unsloth/Qwen3-4B-Instruct-2507-GGUF" = Except.ok () ∧
    (LlmServer.download_model "evil/arbitrary-repo").2 = false :=
  ⟨(LlmServer.validate_repository_allowlist "unsloth/Qwen3-4B-Instruct-2507-GGUF").1.mpr
     (by decide),
   by
    have h := (LlmServer.validate_repository_allowlist "evil/arbitrary-repo").2.1
    cases hb : (LlmServer.download_model "evil/arbitrary-repo").2 with
    | false => rfl
    | true => exact absurd (h.mp hb) (by decide)⟩

/-!
### Embedding service and endpoint
(`src/api/services/embedding_service.py`,
`src/api/controllers/embedding_controller.py`)

The loaded model is abstracted by its two native operations, `embed` and
`tokenize`.  Embedding vectors are `List[float]` payloads that the service
only moves around, never computes with; they are modeled as opaque integer
lists.  Both service functions are instrumented with the list of texts
passed to the native operation, in call order, so that "invoked exactly
once per input item, in input order" is a statement about the embedding.
-/

/-- Python `Union[str, List[str]]` input of the embedding endpoints. -/
inductive EmbInput where
  | single (s : String)
  | batch (l : List String)
  deriving Repr, DecidableEq

/-- The `if isinstance(texts, str): texts = [texts]` normalization that
both service functions perform. -/
def normalizeInput : EmbInput → List String
  | EmbInput.single s => [s]
  | EmbInput.batch l => l

/-- Opaque embedding-vector payload (contents never inspected). -/
abbrev EmbVector := List Int

/-- The `for text in texts: embeddings.append(model.embed(text))` loop of
`EmbeddingService.generate_embeddings`, instrumented with the texts passed
to `model.embed` in call order. -/
def embLoop (embed : String → EmbVector) (acc : List EmbVector × List String) :
    List String → List EmbVector × List String
  | [] => acc
  | t :: ts => embLoop embed (acc.1 ++ [embed t], acc.2 ++ [t]) ts

/-- Embedded `EmbeddingService.generate_embeddings` (embedding_service.py
lines 11-37): normalize, then embed each text in order.  Returns the
embeddings together with the call log. -/
def generate_embeddings (embed : String → EmbVector) (texts : EmbInput) :
    List EmbVector × List String :=
  embLoop embed ([], []) (normalizeInput texts)

/-- The `for text in texts: total_tokens += len(model.tokenize(...))` loop
of `EmbeddingService.count_tokens`, instrumented with the call log. -/
def tokLoop (tokenize : String → List Nat) (acc : Nat × List String) :
    List String → Nat × List String
  | [] => acc
  | t :: ts => tokLoop tokenize (acc.1 + (tokenize t).length, acc.2 ++ [t]) ts

/-- Embedded `EmbeddingService.count_tokens` (lines 39-59). -/
def count_tokens (tokenize : String → List Nat) (texts : EmbInput) : Nat × List String :=
  tokLoop tokenize (0, []) (normalizeInput texts)

lemma embLoop_eq (embed : String → EmbVector) (ts : List String)
    (as : List EmbVector) (ls : List String) :
    embLoop embed (as, ls) ts = (as ++ ts.map embed, ls ++ ts) := by
  induction ts generalizing as ls with
  | nil => simp [embLoop]
  | cons t ts ih => simp [embLoop, ih]

lemma tokLoop_eq (tokenize : String → List Nat) (ts : List String) (n : Nat)
    (ls : List String) :
    tokLoop tokenize (n, ls) ts =
      (n + (ts.map (fun t => (tokenize t).length)).sum, ls ++ ts) := by
  induction ts generalizing n ls with
  | nil => simp [tokLoop]
  | cons t ts ih => simp [tokLoop, ih]; omega

/-- Request schema of `POST /v1/embeddings` (`schemas/embedding.py`);
`encoding_format` defaults to float. -/
structure EmbeddingRequest where
  input : EmbInput
  model : String
  encoding_format : Option String := some "float"
  deriving Repr, DecidableEq

structure EmbeddingData where
  object : String
  embedding : EmbVector
  index : Nat
  deriving Repr, DecidableEq

structure EmbeddingUsage where
  prompt_tokens : Nat
  total_tokens : Nat
  deriving Repr, DecidableEq

structure EmbeddingResponse where
  object : String
  data : List EmbeddingData
  model : String
  usage : EmbeddingUsage
  deriving Repr, DecidableEq

inductive EmbResult where
  | ok (r : EmbeddingResponse)
  | httpError (status : Nat) (detail : String)
  deriving Repr, DecidableEq

/-- Model-side effects of one embedding request, in the order the handler
performs them. -/
inductive EmbEffect where
  | existsCheck (name : String)
  | loadModel (path : String)
  | embedCall (text : String)
  | tokenizeCall (text : String)
  deriving Repr, DecidableEq

/-- Embedded `create_embeddings` endpoint handler
(embedding_controller.py lines 88-160): reject base64 up front, resolve
the model name, load the model through the embedding manager, embed each
input, count tokens, and assemble the response with `index` from
`enumerate` and `total_tokens = prompt_tokens`.  The second component is
the trace of model-side work performed. -/
def create_embeddings (dirExists : Bool) (files : List DiskFile)
    (constructError : String → Option String) (mgr : MgrState)
    (embed : String → EmbVector) (tokenize : String → List Nat)
    (req : EmbeddingRequest) : EmbResult × List EmbEffect :=
  if req.encoding_format == some "base64" then
    (EmbResult.httpError 400
      "base64 encoding format is not yet supported. Use float instead.", [])
  else
    let ex := embedding_model_exists dirExists files req.model
    if !ex.1 then
      (EmbResult.httpError 404
        ("Embedding model " ++ req.model ++ " not found in models directory. " ++
         "Please use /v1/models/embeddings to list available models."),
       [EmbEffect.existsCheck req.model])
    else
      match get_model constructError mgr ex.2 with
      | (Except.error e, _) =>
        (EmbResult.httpError 500 ("Error generating embeddings: " ++ e),
         [EmbEffect.existsCheck req.model, EmbEffect.loadModel ex.2])
      | (Except.ok _, _) =>
        let ge := generate_embeddings embed req.input
        let ct := count_tokens tokenize req.input
        (EmbResult.ok
          { object := "list"
            data := ge.1.enum.map (fun ie =>
              { object := "embedding", embedding := ie.2, index := ie.1 })
            model := req.model
            usage := { prompt_tokens := ct.1, total_tokens := ct.1 } },
         [EmbEffect.existsCheck req.model, EmbEffect.loadModel ex.2] ++
           ge.2.map EmbEffect.embedCall ++ ct.2.map EmbEffect.tokenizeCall)

/-- C7: a base64 embedding request is rejected with a 400 before any model
work: the existence check, the model load, and the embed and tokenize
operations are never invoked (the effect trace is empty). -/
theorem create_embeddings_base64_rejected_first (dirExists : Bool) (files : List DiskFile)
    (constructError : String → Option String) (mgr : MgrState)
    (embed : String → EmbVector) (tokenize : String → List Nat)
    (req : EmbeddingRequest) (hb : req.encoding_format = some "base64") :
    create_embeddings dirExists files constructError mgr embed tokenize req =
      (EmbResult.httpError 400
        "base64 encoding format is not yet supported. Use float instead.", []) := by
  simp [create_embeddings, hb]

/-- Witness for C7 at a concrete request. -/
theorem create_embeddings_base64_rejected_first_witness :
    LlmServer.create_embeddings true [] (fun _ => none) ⟨[], 0, 0⟩
      (fun _ => [0]) (fun _ => [0])
      { input := LlmServer.EmbInput.single "hello", model := "m"
        encoding_format := some "base64" } =
      (LlmServer.EmbResult.httpError 400
        "base64 encoding format is not yet supported. Use float instead.", []) :=
  LlmServer.create_embeddings_base64_rejected_first true [] (fun _ => none) ⟨[], 0, 0⟩
    (fun _ => [0]) (fun _ => [0])
    { input := LlmServer.EmbInput.single "hello", model := "m"
      encoding_format := some "base64" } rfl

/-- C8: on the success path the handler invokes the native embed operation
exactly once per normalized input item, in input order (the effect trace
records one `embedCall` per item, in order); the response carries exactly
one vector per input with indices 0..n-1 in input order; and
`prompt_tokens` is the sum of each text's independently tokenized
length. -/
theorem create_embeddings_one_call_per_item (dirExists : Bool) (files : List DiskFile)
    (constructError : String → Option String) (mgr : MgrState)
    (embed : String → EmbVector) (tokenize : String → List Nat)
    (req : EmbeddingRequest) (p : String) (h : Nat) (mgr2 : MgrState)
    (hb : req.encoding_format ≠ some "base64")
    (hex : embedding_model_exists dirExists files req.model = (true, p))
    (hload : get_model constructError mgr p = (Except.ok h, mgr2)) :
    ∃ resp : EmbeddingResponse, ∃ trace : List EmbEffect,
      create_embeddings dirExists files constructError mgr embed tokenize req =
        (EmbResult.ok resp, trace) ∧
      resp.data.map (fun d => d.index) = List.range (normalizeInput req.input).length ∧
      resp.data.map (fun d => d.embedding) = (normalizeInput req.input).map embed ∧
      trace = [EmbEffect.existsCheck req.model, EmbEffect.loadModel p] ++
        (normalizeInput req.input).map EmbEffect.embedCall ++
        (normalizeInput req.input).map EmbEffect.tokenizeCall ∧
      resp.usage.prompt_tokens =
        ((normalizeInput req.input).map (fun t => (tokenize t).length)).sum := by
  have hbb : (req.encoding_format == some "base64") = false := by
    exact beq_eq_false_iff_ne.mpr hb
  have hge : generate_embeddings embed req.input =
      ((normalizeInput req.input).map embed, normalizeInput req.input) := by
    simpa using embLoop_eq embed (normalizeInput req.input) [] []
  have hct : count_tokens tokenize req.input =
      (((normalizeInput req.input).map (fun t => (tokenize t).length)).sum,
       normalizeInput req.input) := by
    simpa using tokLoop_eq tokenize (normalizeInput req.input) 0 []
  have hmain : create_embeddings dirExists files constructError mgr embed tokenize req =
      (EmbResult.ok
        { object := "list"
          data := ((normalizeInput req.input).map embed).enum.map (fun ie =>
            { object := "embedding", embedding := ie.2, index := ie.1 })
          model := req.model
          usage :=
            ⟨((normalizeInput req.input).map (fun t => (tokenize t).length)).sum,
             ((normalizeInput req.input).map (fun t => (tokenize t).length)).sum⟩ },
       [EmbEffect.existsCheck req.model, EmbEffect.loadModel p] ++
         (normalizeInput req.input).map EmbEffect.embedCall ++
         (normalizeInput req.input).map EmbEffect.tokenizeCall) := by
    simp only [create_embeddings, hbb, Bool.false_eq_true, if_false, hex, Bool.not_true,
      hload, hge, hct]
  refine ⟨_, _, hmain, ?_, ?_, rfl, rfl⟩
  · rw [List.map_map]
    have hcomp : ((fun d => EmbeddingData.index d) ∘ fun ie => (
        { object := "embedding", embedding := ie.2, index := ie.1 } : EmbeddingData)) =
        Prod.fst := rfl
    rw [hcomp, List.enum_map_fst, List.length_map]
  · rw [List.map_map]
    have hcomp : ((fun d => EmbeddingData.embedding d) ∘ fun ie => (
        { object := "embedding", embedding := ie.2, index := ie.1 } : EmbeddingData)) =
        Prod.snd := rfl
    rw [hcomp, List.enum_map_snd]

/-- Witness for C8 at a concrete request: input list a, b, c against a
present model x, with singleton tokenizations. -/
theorem create_embeddings_one_call_per_item_witness :
    ∃ resp : LlmServer.EmbeddingResponse, ∃ trace : List LlmServer.EmbEffect,
      LlmServer.create_embeddings true
        [⟨"x.gguf", "embed/x.gguf", "/models/embed/x.gguf", "1.00 MB"⟩]
        (fun _ => none) ⟨[], 0, 0⟩ (fun t => [(t.length : Int)]) (fun t => [t.length])
        { input := LlmServer.EmbInput.batch ["a", "b", "c"], model := "x"
          encoding_format := some "float" } =
        (LlmServer.EmbResult.ok resp, trace) ∧
      resp.data.map (fun d => d.index) =
        List.range (LlmServer.normalizeInput (LlmServer.EmbInput.batch ["a", "b", "c"])).length ∧
      resp.data.map (fun d => d.embedding) =
        (LlmServer.normalizeInput (LlmServer.EmbInput.batch ["a", "b", "c"])).map
          (fun t => [(t.length : Int)]) ∧
      trace = [LlmServer.EmbEffect.existsCheck "x",
               LlmServer.EmbEffect.loadModel "/models/embed/x.gguf"] ++
        (LlmServer.normalizeInput (LlmServer.EmbInput.batch ["a", "b", "c"])).map
          LlmServer.EmbEffect.embedCall ++
        (LlmServer.normalizeInput (LlmServer.EmbInput.batch ["a", "b", "c"])).map
          LlmServer.EmbEffect.tokenizeCall ∧
      resp.usage.prompt_tokens =
        ((LlmServer.normalizeInput (LlmServer.EmbInput.batch ["a", "b", "c"])).map
          (fun t => ((fun (u : String) => [u.length]) t).length)).sum :=
  LlmServer.create_embeddings_one_call_per_item true
    [⟨"x.gguf", "embed/x.gguf", "/models/embed/x.gguf", "1.00 MB"⟩]
    (fun _ => none) ⟨[], 0, 0⟩ (fun t => [(t.length : Int)]) (fun t => [t.length])
    { input := LlmServer.EmbInput.batch ["a", "b", "c"], model := "x"
      encoding_format := some "float" }
    "/models/embed/x.gguf" 0
    ⟨[("/models/embed/x.gguf", 0)], 1, 1⟩
    (by decide) rfl rfl

/-- C10: every successful embedding response reports
`total_tokens = prompt_tokens`; both fields are set from the same token
count and no completion-token component is ever added. -/
theorem create_embeddings_total_eq_prompt (dirExists : Bool) (files : List DiskFile)
    (constructError : String → Option String) (mgr : MgrState)
    (embed : String → EmbVector) (tokenize : String → List Nat)
    (req : EmbeddingRequest) (resp : EmbeddingResponse) (trace : List EmbEffect)
    (hok : create_embeddings dirExists files constructError mgr embed tokenize req =
      (EmbResult.ok resp, trace)) :
    resp.usage.total_tokens = resp.usage.prompt_tokens := by
  by_cases hb : (req.encoding_format == some "base64") = true
  · simp [create_embeddings, hb] at hok
  · by_cases hex : (embedding_model_exists dirExists files req.model).1 = true
    · rcases hload : get_model constructError mgr
          (embedding_model_exists dirExists files req.model).2 with ⟨r, m2⟩
      cases r with
      | error e =>
        simp [create_embeddings, hb, hex, hload] at hok
      | ok hh =>
        simp only [create_embeddings, Bool.not_true, hex, hload,
          if_neg (by simp [hb] : ¬((req.encoding_format == some "base64") = true)),
          if_neg (by simp [hex] : ¬((!(embedding_model_exists dirExists files req.model).1)
            = true))] at hok
        rcases hok with ⟨-, -⟩
        rfl
    · simp [create_embeddings, hb, Bool.eq_false_iff.mpr hex] at hok

/-- Witness for C10 at a concrete successful request. -/
theorem create_embeddings_total_eq_prompt_witness :
    ({ prompt_tokens := 1, total_tokens := 1 } : LlmServer.EmbeddingUsage).total_tokens =
      ({ prompt_tokens := 1, total_tokens := 1 } : LlmServer.EmbeddingUsage).prompt_tokens :=
  LlmServer.create_embeddings_total_eq_prompt true
    [⟨"x.gguf", "embed/x.gguf", "/models/embed/x.gguf", "1.00 MB"⟩]
    (fun _ => none) ⟨[], 0, 0⟩ (fun _ => [0]) (fun _ => [7])
    { input := LlmServer.EmbInput.single "hi", model := "x"
      encoding_format := some "float" }
    { object := "list"
      data := [{ object := "embedding", embedding := [0], index := 0 }]
      model := "x"
      usage := { prompt_tokens := 1, total_tokens := 1 } }
    [LlmServer.EmbEffect.existsCheck "x", LlmServer.EmbEffect.loadModel "/models/embed/x.gguf",
     LlmServer.EmbEffect.embedCall "hi", LlmServer.EmbEffect.tokenizeCall "hi"]
    (by decide)

/-!
### Chat completion schemas, adapter and endpoint
(`src/api/schemas/chat.py`, `src/api/schemas/llama.py`,
`src/api/services/chat_service.py`,
`src/api/controllers/chat_controller.py`)
-/

/-- JSON values as passed around for tool parameter schemas
(`Dict[str, Any]` in the source); pure pass-through data. -/
inductive PyJson where
  | null
  | bool (b : Bool)
  | num (n : Int)
  | str (s : String)
  | arr (xs : List PyJson)
  | obj (fields : List (String × PyJson))

/-- Function detail of a native tool call (`LlamaToolCallFunction`):
`arguments` is already a JSON string at the native layer. -/
structure LlamaToolCallFunction where
  name : String
  arguments : String
  deriving Repr, DecidableEq

/-- Native tool call (`LlamaToolCall`); `type` is the literal string
function, validated by the schema. -/
structure LlamaToolCall where
  id : String
  type : String
  function : LlamaToolCallFunction
  deriving Repr, DecidableEq

structure LlamaMessage where
  role : String
  content : Option String
  tool_calls : Option (List LlamaToolCall)
  deriving Repr, DecidableEq

structure LlamaChoice where
  index : Int
  message : LlamaMessage
  finish_reason : String
  deriving Repr, DecidableEq

structure LlamaUsage where
  prompt_tokens : Int
  completion_tokens : Int
  total_tokens : Int
  deriving Repr, DecidableEq

/-- Typed native response (`LlamaChatCompletionResponse`), produced by
validating the raw dict returned by the inference library; all fields
required. -/
structure LlamaChatCompletionResponse where
  id : String
  object : String
  created : Int
  model : String
  choices : List LlamaChoice
  usage : LlamaUsage
  deriving Repr, DecidableEq

/-- Public chat message (`Message` in chat.py); `role` is constrained to
the four literals by the pydantic schema, kept as a string here. -/
structure Message where
  role : String
  content : String
  name : Option String := none
  tool_call_id : Option String := none
  deriving Repr, DecidableEq

structure ToolCallFunction where
  name : String
  arguments : String
  deriving Repr, DecidableEq

/-- Public tool call of the response (`ToolCall` in chat.py; its
`function` field is a dict with name and arguments keys). -/
structure ToolCall where
  id : String
  type : String
  function : ToolCallFunction
  deriving Repr, DecidableEq

structure Choice where
  index : Int
  message : Message
  finish_reason : String
  tool_calls : Option (List ToolCall)
  deriving Repr, DecidableEq

structure Usage where
  prompt_tokens : Int
  completion_tokens : Int
  total_tokens : Int
  deriving Repr, DecidableEq

structure ChatCompletionResponse where
  id : String
  object : String
  created : Int
  model : String
  choices : List Choice
  usage : Usage
  deriving Repr, DecidableEq

structure FunctionDefinition where
  name : String
  description : String
  parameters : PyJson

structure Tool where
  type : String
  function : FunctionDefinition

/-- Request schema of `POST /v1/chat/completions`. -/
structure ChatCompletionRequest where
  model : String
  messages : List Message
  temperature : Option Float := none
  max_tokens : Option Int := none
  tools : Option (List Tool) := none
  tool_choice : Option String := some "auto"
  stream : Bool := false

/-- Process-wide defaults from `src/llm_client/config.py`. -/
structure Settings where
  n_ctx : Int := 20000
  n_gpu_layers : Int := 0
  n_threads : Int := 4
  temperature : Float := 0.7
  max_tokens : Int := 3000
  verbose : Bool := false

def settings : Settings := {}

/-- Message dict handed to the native call: `{"role": ..., "content": msg.content or ""}`. -/
structure MsgDict where
  role : String
  content : String

structure ToolDictFunction where
  name : String
  description : String
  parameters : PyJson

structure ToolDict where
  type : String
  function : ToolDictFunction

/-- The loaded native model, abstracted by its `create_chat_completion`
operation (arguments in source order: messages, tools, max_tokens,
temperature); an error value stands for a raised exception or a response
failing the `LlamaChatCompletionResponse` validation. -/
def NativeModel : Type :=
  List MsgDict → Option (List ToolDict) → Int → Float →
    Except String LlamaChatCompletionResponse

/-- Embedded `ChatCompletionService.generate_completion` (chat_service.py
lines 20-72): convert messages and tools to the native dict shapes and
invoke the native call.  An empty tools list is falsy in Python, so
`tools_dict` stays `None` for it. -/
def generate_completion (native : NativeModel) (messages : List Message)
    (temperature : Float) (max_tokens : Int) (tools : Option (List Tool)) :
    Except String LlamaChatCompletionResponse :=
  let messages_dict := messages.map (fun m => { role := m.role, content := m.content : MsgDict })
  let tools_dict : Option (List ToolDict) :=
    match tools with
    | none => none
    | some ts =>
      if ts.isEmpty then none
      else some (ts.map (fun t =>
        { type := "function"
          function := { name := t.function.name, description := t.function.description
                        parameters := t.function.parameters } }))
  native messages_dict tools_dict max_tokens temperature

/-- Embedded `ChatCompletionService.parse_model_response` (chat_service.py
lines 74-131): use choice 0 only (`response.choices[0]`; an empty choices
list raises IndexError, embedded as `none`); convert each native tool call
when the native message carries any (an empty list is falsy and yields no
tool calls); default content to the empty string; pass the finish reason
and usage counts through unchanged. -/
def parse_model_response (response : LlamaChatCompletionResponse) :
    Option ChatCompletionResponse :=
  match response.choices.head? with
  | none => none
  | some choice_data =>
    let message_data := choice_data.message
    let tool_calls : Option (List ToolCall) :=
      match message_data.tool_calls with
      | none => none
      | some tcs =>
        if tcs.isEmpty then none
        else some (tcs.map (fun tc =>
          { id := tc.id, type := tc.type
            function := { name := tc.function.name, arguments := tc.function.arguments } }))
    some
      { id := response.id
        object := "chat.completion"
        created := response.created
        model := response.model
        choices := [{ index := choice_data.index
                      message := { role := message_data.role
                                   content := message_data.content.getD "" }
                      finish_reason := choice_data.finish_reason
                      tool_calls := tool_calls }]
        usage := { prompt_tokens := response.usage.prompt_tokens
                   completion_tokens := response.usage.completion_tokens
                   total_tokens := response.usage.total_tokens } }

/-- C9: `parse_model_response` uses choice 0 only; when the native message
carries tool calls it produces exactly one public tool call per native
tool call preserving id, type and function name, with the arguments JSON
string passed through unchanged; content defaults to the empty string;
the finish reason is passed through unchanged. -/
theorem parse_model_response_spec (response : LlamaChatCompletionResponse)
    (c : LlamaChoice) (rest : List LlamaChoice) (h : response.choices = c :: rest) :
    parse_model_response response = some
      { id := response.id
        object := "chat.completion"
        created := response.created
        model := response.model
        choices := [{ index := c.index
                      message := { role := c.message.role
                                   content := c.message.content.getD "" }
                      finish_reason := c.finish_reason
                      tool_calls :=
                        match c.message.tool_calls with
                        | none => none
                        | some tcs =>
                          if tcs.isEmpty then none
                          else some (tcs.map (fun tc =>
                            { id := tc.id, type := tc.type
                              function := { name := tc.function.name
                                            arguments := tc.function.arguments } })) }]
        usage := { prompt_tokens := response.usage.prompt_tokens
                   completion_tokens := response.usage.completion_tokens
                   total_tokens := response.usage.total_tokens } } := by
  rw [parse_model_response, h]
  rfl

/-- The weather-scenario native tool call: arguments already a JSON
string at the native layer. -/
def weatherNativeToolCall : LlamaToolCall :=
  { id := "call_1", type := "function"
    function := { name := "get_weather", arguments := "\x7b\"location\": \"Paris, France\"\x7d" } }

/-- The weather-scenario native choice: tool-call message with no content. -/
def weatherNativeChoice : LlamaChoice :=
  { index := 0
    message := { role := "assistant", content := none
                 tool_calls := some [weatherNativeToolCall] }
    finish_reason := "tool_calls" }

/-- The weather-scenario native response. -/
def weatherNativeResponse : LlamaChatCompletionResponse :=
  { id := "chatcmpl-test123", object := "chat.completion", created := 1707782400
    model := "test-model", choices := [weatherNativeChoice]
    usage := { prompt_tokens := 85, completion_tokens := 25, total_tokens := 110 } }

/-- Witness for C9 at the weather scenario: the parsed response keeps the
single get_weather tool call with id, type, name and the JSON arguments
string unchanged, defaults content to the empty string, and passes
finish_reason tool_calls through. -/
theorem parse_model_response_spec_witness :
    LlmServer.parse_model_response LlmServer.weatherNativeResponse = some
      { id := "chatcmpl-test123", object := "chat.completion", created := 1707782400
        model := "test-model"
        choices := [{ index := 0
                      message := { role := "assistant", content := "" }
                      finish_reason := "tool_calls"
                      tool_calls := some [{ id := "call_1", type := "function"
                                            function := { name := "get_weather", arguments := "\x7b\"location\": \"Paris, France\"\x7d" } }] }]
        usage := { prompt_tokens := 85, completion_tokens := 25, total_tokens := 110 } } :=
  LlmServer.parse_model_response_spec LlmServer.weatherNativeResponse
    LlmServer.weatherNativeChoice [] rfl

/-!
### The chat completion endpoint and claim C1

`create_chat_completion` in `chat_controller.py` (line 128) calls
`model_service.model_exists(request.model, "chat")`.  The `ModelService`
class body in `model_service.py` defines the methods listed in
`modelServiceMethods` below - there is no `model_exists` and no
`__getattr__` anywhere in the service - so that attribute lookup raises
`AttributeError` on every request, which the blanket
`except Exception` arm of the handler converts into a 500 response.  The
lookup of the (absent) method is embedded as an `Option` that is `none`.
-/

/-- The method names defined in the `ModelService` class body
(model_service.py). -/
def modelServiceMethods : List String :=
  ["__new__", "__init__", "list_available_chat_models",
   "list_available_embedding_models", "chat_model_exists",
   "embedding_model_exists", "list_downloadable_chat_models",
   "list_downloadable_embedding_models", "validate_repository",
   "download_model_async", "_format_size"]

/-- Attribute lookup of `model_exists` on `ModelService`: the class
defines no such method, so the lookup fails (`none`).  The type is the
signature the call site expects: directory state, model name and model
type to an (exists, path) pair. -/
def method_model_exists : Option (Bool → List DiskFile → String → String → Bool × String) :=
  none

lemma model_exists_not_a_method : modelServiceMethods.contains "model_exists" = false := by
  decide

inductive ChatResult where
  | ok (r : ChatCompletionResponse)
  | httpError (status : Nat) (detail : String)
  deriving Repr, DecidableEq

/-- Embedded `create_chat_completion` endpoint handler
(chat_controller.py lines 113-160).  The first statement of the `try`
block resolves the `model_exists` attribute; because the method does not
exist, every request takes the `AttributeError` path into the blanket
`except Exception` arm and returns a 500 whose detail is the Python
error text (quoting characters elided).  The remaining arms embed the
rest of the handler body as written: 404 for an absent model, load via
the chat manager, generation parameter defaulting from `settings`,
native call, response parsing. -/
def create_chat_completion (native : NativeModel) (dirExists : Bool)
    (files : List DiskFile) (constructError : String → Option String) (mgr : MgrState)
    (req : ChatCompletionRequest) : ChatResult :=
  match method_model_exists with
  | none =>
    ChatResult.httpError 500 "ModelService object has no attribute model_exists"
  | some model_exists =>
    let ex := model_exists dirExists files req.model "chat"
    if !ex.1 then
      ChatResult.httpError 404
        ("Chat model " ++ req.model ++ " not found in models directory. " ++
         "Please use /v1/models/chat to list available models.")
    else
      match get_model constructError mgr ex.2 with
      | (Except.error e, _) => ChatResult.httpError 500 e
      | (Except.ok _, _) =>
        let temperature := (req.temperature).getD settings.temperature
        let max_tokens := (req.max_tokens).getD settings.max_tokens
        match generate_completion native req.messages temperature max_tokens req.tools with
        | Except.error e => ChatResult.httpError 500 e
        | Except.ok response =>
          match parse_model_response response with
          | none => ChatResult.httpError 500 "list index out of range"
          | some r => ChatResult.ok r

/-- C1 is a code bug: because the handler calls the nonexistent
`model_exists` method, every chat completion request - including one
naming a model absent from the directory - returns a 500 with the
`AttributeError` text, never the 404 the handler's own dead not-found
branch (and the spec) prescribe. -/
theorem create_chat_completion_always_500 (native : NativeModel) (dirExists : Bool)
    (files : List DiskFile) (constructError : String → Option String) (mgr : MgrState)
    (req : ChatCompletionRequest) :
    create_chat_completion native dirExists files constructError mgr req =
      ChatResult.httpError 500 "ModelService object has no attribute model_exists" :=
  rfl

end LlmServer
